import Mathlib

/-!
Verification of the dataset-validation and job-lifecycle core of the
SD3.5L trainer CLI.

The definitions below are a shallow embedding of the Python source:
- `validate_dataset_structure` embeds the archive-inspection function of
  `src/sd35l_trainer/config.py` (lines 310-374), operating on the archive
  listing (`zip_file.namelist()`) given as a `List String`;
- `monitorRun` embeds the polling loop of
  `TrainingManager.monitor_training` (`src/sd35l_trainer/training.py`,
  lines 157-185) as a function over a trace of per-iteration events;
- `cancel_training` embeds `TrainingManager.cancel_training`
  (lines 129-142) as a function of the job's remote status;
- `renameArtifact` embeds the weights-file rename step of
  `TrainingManager.download_result` (lines 201-246), operating on the
  list of file names present in the output directory.

Python set iteration order is hash-dependent and hence arbitrary; the
embedding determinises sets of base names as duplicate-free lists in
first-occurrence order (`List.dedup` applied to reversed lists is avoided:
we use an order-preserving dedup built from `List.filter`).
-/

namespace SD35L

/-- Index of the last occurrence of `c` in `cs`, if any.  Mirrors
Python's `str.rfind` restricted to single characters. -/
def lastIndexOf (cs : List Char) (c : Char) : Option Nat :=
  ((List.range cs.length).filter (fun i => cs.getD i ' ' == c)).getLast?

/-- Embedding of CPython's `os.path.splitext` with `sep = '/'` (POSIX, no
alternate separator): the extension is everything from the last dot on,
provided that dot lies after the last separator and the base name has at
least one non-dot character before it; otherwise the extension is empty. -/
def splitext (p : String) : String × String :=
  let cs := p.toList
  let sepIndex : Int := match lastIndexOf cs '/' with
    | some i => (i : Int)
    | none => -1
  match lastIndexOf cs '.' with
  | none => (p, "")
  | some dotIndex =>
    if (dotIndex : Int) > sepIndex then
      let filenameIndex := (sepIndex + 1).toNat
      if (List.range' filenameIndex (dotIndex - filenameIndex)).any
          (fun i => cs.getD i '.' != '.') then
        (String.mk (cs.take dotIndex), String.mk (cs.drop dotIndex))
      else (p, "")
    else (p, "")

/-- ASCII lowering of a string, mirroring `str.lower` on the ASCII file
names this tool deals with. -/
def lowerStr (s : String) : String :=
  String.mk (s.toList.map Char.toLower)

/-- Character-level test that `pre` begins `s`, mirroring Python's
`str.startswith` on the names this tool deals with. -/
def startsWithStr (s pre : String) : Bool :=
  s.toList.take pre.toList.length == pre.toList

/-- Character-level test that `suf` ends `s`, mirroring Python's
`str.endswith` and the observable behaviour of `'*.ext'` glob matching. -/
def hasSuffixStr (s suf : String) : Bool :=
  (s.toList.drop (s.toList.length - suf.toList.length)) == suf.toList

/-- Character-level split, mirroring Python's `str.split(sep)` for a
single-character separator: the result always has one more part than
there are separator occurrences. -/
def splitOnChar (c : Char) : List Char → List (List Char)
  | [] => [[]]
  | a :: rest =>
    if a == c then [] :: splitOnChar c rest
    else match splitOnChar c rest with
      | [] => [[a]]
      | h :: t => (a :: h) :: t

/-- `s.split('/')` as a list of strings. -/
def splitOnSlash (s : String) : List String :=
  (splitOnChar '/' s.toList).map String.mk

/-- The fixed image-extension set of `validate_dataset_structure`
(`image_extensions` in the source). -/
def image_extensions : List String :=
  [".jpg", ".jpeg", ".png", ".bmp", ".tiff", ".tif", ".webp"]

/-- The directory / hidden / OS-metadata filter of
`validate_dataset_structure`:
`not f.endswith('/') and not f.startswith('.') and not f.startswith('__MACOSX')`. -/
def isValidFile (f : String) : Bool :=
  !(hasSuffixStr f "/") && !(startsWithStr f ".") && !(startsWithStr f "__MACOSX")

/-- Result of the classification loop of `validate_dataset_structure`:
lists `image_files`, `text_files` (pairs of base name and full entry
name) and `other_files`, in listing order. -/
structure Classified where
  image_files : List (String × String)
  text_files : List (String × String)
  other_files : List String
deriving DecidableEq, Repr

/-- The classification loop of `validate_dataset_structure`: for each
entry, the base name is `splitext(file)[0]` (case preserved, directory
prefix included) while the extension used for classification is
`splitext(file.lower())[1]`. -/
def classify (files : List String) : Classified :=
  files.foldl (fun acc file =>
    let base_name := (splitext file).1
    let ext := (splitext (lowerStr file)).2
    if image_extensions.contains ext then
      { acc with image_files := acc.image_files ++ [(base_name, file)] }
    else if ext == ".txt" then
      { acc with text_files := acc.text_files ++ [(base_name, file)] }
    else
      { acc with other_files := acc.other_files ++ [file] })
    ⟨[], [], []⟩

/-- Order-preserving duplicate removal, with `seen` accumulating the
values already emitted: each element is kept at its first occurrence. -/
def dedupAux (seen : List String) : List String → List String
  | [] => []
  | a :: l => if seen.contains a then dedupAux seen l else a :: dedupAux (a :: seen) l

/-- Order-preserving duplicate removal (first occurrence kept): the
embedding's determinisation of Python's `set` construction, which
iterates the listing once inserting each base name. -/
def dedupKeepFirst (l : List String) : List String := dedupAux [] l

/-- The validation errors raised by `validate_dataset_structure`.  The
source raises `ValueError` with a message at four distinct sites; each
site becomes one constructor carrying the message the source builds. -/
inductive DatasetError where
  | emptyArchive (msg : String)
  | noImages (msg : String)
  | noCaptions (msg : String)
  | unpairedImages (msg : String) (names : List String)
deriving DecidableEq, Repr

/-- Message of the empty-archive `ValueError` (config.py line 317). -/
def emptyArchiveMsg : String :=
  "Dataset ZIP file appears to be empty or contains no valid files"

/-- Message of the no-images `ValueError` (config.py line 343); the
source joins the extension set in hash order, determinised here as the
literal order of `image_extensions`. -/
def noImagesMsg : String :=
  "No image files found in dataset. Supported formats: "
    ++ String.intercalate ", " image_extensions

/-- Message of the no-captions `ValueError` (config.py lines 346-350). -/
def noCaptionsMsg : String :=
  "No caption files (.txt) found in dataset.\n"
    ++ "IMPORTANT: Manual captioning is required - each image must have a corresponding .txt file.\n"
    ++ "Example: image1.jpg → image1.txt, photo2.png → photo2.txt"

/-- Message of the unpaired-images `ValueError` (config.py lines
357-362): the count, the first (at most) 5 offending base names, a
remainder count when more than 5, and the remediation line. -/
def unpairedImagesMsg (unpaired : List String) : String :=
  "Found " ++ toString unpaired.length
    ++ " image(s) without matching caption files.\n"
    ++ "Missing captions for: " ++ String.intercalate ", " (unpaired.take 5)
    ++ (if unpaired.length > 5 then
          " and " ++ toString (unpaired.length - 5) ++ " more"
        else "")
    ++ "\nEach image must have a corresponding .txt file with the same filename."

/-- Warning printed when caption files have no matching image
(config.py line 365). -/
def unpairedTextsWarning (unpaired_texts : List String) : String :=
  "Warning: Found " ++ toString unpaired_texts.length
    ++ " caption file(s) without matching images."

/-- The success report of `validate_dataset_structure`: base-name sets
(as duplicate-free lists), the paired count the source prints, and the
unpaired caption bases it warns about. -/
structure PairingReport where
  image_bases : List String
  text_bases : List String
  paired_count : Nat
  unpaired_texts : List String
deriving DecidableEq, Repr

/-- `image_bases` of `validate_dataset_structure` (config.py line 339):
the set of image base names, determinised as a duplicate-free list. -/
def imageBasesOf (file_list : List String) : List String :=
  dedupKeepFirst ((classify (file_list.filter isValidFile)).image_files.map Prod.fst)

/-- `text_bases` of `validate_dataset_structure` (config.py line 340). -/
def textBasesOf (file_list : List String) : List String :=
  dedupKeepFirst ((classify (file_list.filter isValidFile)).text_files.map Prod.fst)

/-- `unpaired_images = image_bases - text_bases` (config.py line 353). -/
def unpairedImagesOf (file_list : List String) : List String :=
  (imageBasesOf file_list).filter (fun b => !(textBasesOf file_list).contains b)

/-- `unpaired_texts = text_bases - image_bases` (config.py line 354). -/
def unpairedTextsOf (file_list : List String) : List String :=
  (textBasesOf file_list).filter (fun b => !(imageBasesOf file_list).contains b)

/-- `paired_count = len(image_bases & text_bases)` (config.py line 368). -/
def pairedCountOf (file_list : List String) : Nat :=
  ((imageBasesOf file_list).filter (fun b => (textBasesOf file_list).contains b)).length

/-- Embedding of `validate_dataset_structure` (config.py lines 310-374)
from the archive listing onward: filters out directories and
hidden/system entries, classifies by extension, checks emptiness and
pairing in source order, and on success reports the paired count.  The
second component collects the warnings printed on the path taken (the
unpaired-captions warning is the only warning reachable before the
return). -/
def validate_dataset_structure (file_list : List String) :
    Except DatasetError PairingReport × List String :=
  if (file_list.filter isValidFile).isEmpty then
    (.error (.emptyArchive emptyArchiveMsg), [])
  else if (classify (file_list.filter isValidFile)).image_files.isEmpty then
    (.error (.noImages noImagesMsg), [])
  else if (classify (file_list.filter isValidFile)).text_files.isEmpty then
    (.error (.noCaptions noCaptionsMsg), [])
  else if !(unpairedImagesOf file_list).isEmpty then
    (.error (.unpairedImages (unpairedImagesMsg (unpairedImagesOf file_list))
                             (unpairedImagesOf file_list)), [])
  else
    (.ok ⟨imageBasesOf file_list, textBasesOf file_list,
          pairedCountOf file_list, unpairedTextsOf file_list⟩,
     if !(unpairedTextsOf file_list).isEmpty then
       [unpairedTextsWarning (unpairedTextsOf file_list)]
     else [])

/-- Substring test used to state facts about the error messages:
`pat` occurs contiguously in `s`. -/
def strContains (s pat : String) : Bool :=
  (List.range (s.toList.length + 1)).any
    (fun i => (s.toList.drop i).take pat.toList.length == pat.toList)

/-- The terminal-status test of the monitoring loop of
`TrainingManager.monitor_training`: the three statuses on which the
loop returns (training.py lines 162-174). -/
def isTerminal (s : String) : Bool :=
  s == "succeeded" || s == "failed" || s == "canceled"

/-- Remote-service operations the client can issue.  `monitor_training`
only ever issues status fetches; `cancel_training` issues one status
fetch and possibly one cancel request. -/
inductive ClientOp where
  | getStatus
  | cancel
deriving DecidableEq, Repr

/-- One iteration of the monitoring loop, seen from outside: either the
status fetch completes with status `s` and the iteration runs to the end
of its sleep, or a `KeyboardInterrupt` arrives during the fetch, or the
fetch completes with non-terminal `s` and the interrupt arrives during
the subsequent sleep, or the fetch raises some other exception. -/
inductive PollEvent where
  | polled (s : String)
  | fetchInterrupted
  | sleepInterrupted (s : String)
  | fetchFailed
deriving DecidableEq, Repr

/-- Embedding of the `while True` loop of
`TrainingManager.monitor_training` (training.py lines 157-185) over a
trace of per-iteration events.  Returns the string the Python function
returns together with the list of client operations issued, or `none`
when the trace is exhausted without the loop returning (the loop would
keep polling).  A terminal status returns it at once; a
`KeyboardInterrupt` returns `"monitoring_stopped"`; any other exception
from the status fetch returns `"error"`.  The loop never issues a cancel
request. -/
def monitorRun : List PollEvent → Option (String × List ClientOp)
  | [] => none
  | .polled s :: rest =>
      if isTerminal s then some (s, [.getStatus])
      else (monitorRun rest).map (fun r => (r.1, .getStatus :: r.2))
  | .fetchInterrupted :: _ => some ("monitoring_stopped", [])
  | .sleepInterrupted s :: _ =>
      if isTerminal s then some (s, [.getStatus])
      else some ("monitoring_stopped", [.getStatus])
  | .fetchFailed :: _ => some ("error", [.getStatus])

/-- Embedding of `TrainingManager.cancel_training` (training.py lines
129-142) as a function of the job status the preliminary
`trainings.get` returns: only `starting`/`processing` lead to a cancel
request and `True`; any other status returns `False` with no cancel
request issued.  The second component lists the remote operations
issued, in order. -/
def cancel_training (status : String) : Bool × List ClientOp :=
  if status == "starting" || status == "processing" then
    (true, [.getStatus, .cancel])
  else
    (false, [.getStatus])

/-- Model name derived from the destination in
`TrainingManager.download_result` (training.py line 205):
`destination.split('/')[-1] if '/' in destination else destination`. -/
def modelNameOf (destination : String) : String :=
  if destination.toList.contains '/' then
    (splitOnSlash destination).getLastD ""
  else destination

/-- Target artifact name built in `download_result` (line 239):
`f"{model_name}_{trigger_word}.safetensors"`. -/
def targetFileName (destination trigger : String) : String :=
  modelNameOf destination ++ "_" ++ trigger ++ ".safetensors"

/-- A weights file, as located by `glob('*.safetensors')`. -/
def isWeightsFile (f : String) : Bool :=
  hasSuffixStr f ".safetensors"

/-- Result of the rename step of `download_result`: the directory
contents afterwards, the artifact path reported, and whether a rename
system call was performed. -/
structure RenameResult where
  files : List String
  artifact : String
  renamed : Bool
deriving DecidableEq, Repr

/-- Embedding of the weights-file rename step of
`TrainingManager.download_result` (training.py lines 233-250) on the
list of file names in the output directory (glob order determinised as
list order): take the first `.safetensors` file; if its name differs
from `{model_name}_{trigger_word}.safetensors` rename it, else leave it
in place; report `None` when no weights file exists. -/
def renameArtifact (files : List String) (destination trigger : String) :
    Option RenameResult :=
  match files.filter isWeightsFile with
  | [] => none
  | orig :: _ =>
    let newName := targetFileName destination trigger
    if orig = newName then some ⟨files, newName, false⟩
    else some ⟨files.map (fun f => if f = orig then newName else f), newName, true⟩

/-- Discriminator for the no-captions error kind. -/
def isNoCaptionsError : Except DatasetError PairingReport → Bool
  | .error (.noCaptions _) => true
  | _ => false

/-! ### Helper lemmas -/

theorem contains_iff_mem (l : List String) (x : String) :
    l.contains x = true ↔ x ∈ l :=
  List.elem_iff

theorem mem_dedupAux (x : String) (l : List String) :
    ∀ seen, x ∈ dedupAux seen l ↔ x ∈ l ∧ x ∉ seen := by
  induction l with
  | nil => intro seen; simp [dedupAux]
  | cons a l ih =>
    intro seen
    simp only [dedupAux]
    by_cases h : seen.contains a = true
    · rw [if_pos h, ih seen]
      have ha : a ∈ seen := (contains_iff_mem _ _).mp h
      constructor
      · rintro ⟨hx, hs⟩
        exact ⟨List.mem_cons_of_mem a hx, hs⟩
      · rintro ⟨hx, hs⟩
        rcases List.mem_cons.mp hx with rfl | hx'
        · exact absurd ha hs
        · exact ⟨hx', hs⟩
    · rw [if_neg h]
      constructor
      · intro hmem
        rcases List.mem_cons.mp hmem with rfl | hx'
        · exact ⟨List.mem_cons_self _ _, fun hs => h ((contains_iff_mem _ _).mpr hs)⟩
        · rcases (ih (a :: seen)).mp hx' with ⟨hl, hs⟩
          exact ⟨List.mem_cons_of_mem a hl, fun hseen => hs (List.mem_cons_of_mem a hseen)⟩
      · rintro ⟨hx, hs⟩
        rcases List.mem_cons.mp hx with rfl | hx'
        · exact List.mem_cons_self _ _
        · by_cases hxa : x = a
          · subst hxa; exact List.mem_cons_self _ _
          · refine List.mem_cons_of_mem a ((ih (a :: seen)).mpr ⟨hx', fun hmem' => ?_⟩)
            rcases List.mem_cons.mp hmem' with h1 | h2
            · exact hxa h1
            · exact hs h2

theorem mem_dedupKeepFirst (x : String) (l : List String) :
    x ∈ dedupKeepFirst l ↔ x ∈ l := by
  rw [dedupKeepFirst, mem_dedupAux]
  simp

theorem nodup_dedupAux (l : List String) : ∀ seen, (dedupAux seen l).Nodup := by
  induction l with
  | nil => intro seen; simp [dedupAux]
  | cons a l ih =>
    intro seen
    simp only [dedupAux]
    by_cases h : seen.contains a = true
    · rw [if_pos h]; exact ih seen
    · rw [if_neg h]
      refine List.nodup_cons.mpr ⟨fun hmem => ?_, ih (a :: seen)⟩
      exact ((mem_dedupAux a l (a :: seen)).mp hmem).2 (List.mem_cons_self _ _)

theorem nodup_dedupKeepFirst (l : List String) : (dedupKeepFirst l).Nodup :=
  nodup_dedupAux l []

theorem toList_strAppend (a b : String) : (a ++ b).toList = a.toList ++ b.toList := rfl

theorem strAppend_assoc (a b c : String) : (a ++ b) ++ c = a ++ (b ++ c) := by
  apply String.ext
  exact List.append_assoc a.data b.data c.data

/-- A string occurs as a contiguous substring of any string of which it
is the middle append factor. -/
theorem strContains_middle (a x b : String) : strContains (a ++ x ++ b) x = true := by
  have hsplit : (a ++ x ++ b).toList = a.toList ++ (x.toList ++ b.toList) := by
    rw [toList_strAppend, toList_strAppend, List.append_assoc]
  unfold strContains
  rw [List.any_eq_true]
  refine ⟨a.toList.length, ?_, ?_⟩
  · rw [List.mem_range, hsplit, List.length_append]
    omega
  · rw [hsplit, List.drop_left, List.take_left]
    exact beq_self_eq_true _

/-- Appending a suffix yields a string with that suffix. -/
theorem hasSuffixStr_append (a suf : String) : hasSuffixStr (a ++ suf) suf = true := by
  unfold hasSuffixStr
  rw [toList_strAppend, List.length_append, Nat.add_sub_cancel, List.drop_left]
  exact beq_self_eq_true _

theorem isEmpty_false_iff {α : Type} (l : List α) : l.isEmpty = false ↔ l ≠ [] := by
  cases l <;> simp

theorem classify_nil : classify [] = ⟨[], [], []⟩ := rfl

theorem image_files_filter_ne_nil (fl : List String)
    (himg : (classify (fl.filter isValidFile)).image_files ≠ []) :
    fl.filter isValidFile ≠ [] := by
  intro h
  apply himg
  rw [h, classify_nil]

/-- Characterisation of the success condition of
`validate_dataset_structure`: it returns a report exactly when the
classified image list and caption list are non-empty and no image base
name is unpaired. -/
theorem validate_ok_iff (fl : List String) :
    (∃ r, (validate_dataset_structure fl).1 = .ok r) ↔
      ((classify (fl.filter isValidFile)).image_files ≠ [] ∧
       (classify (fl.filter isValidFile)).text_files ≠ [] ∧
       unpairedImagesOf fl = []) := by
  by_cases h1 : (fl.filter isValidFile).isEmpty = true
  · have hf : fl.filter isValidFile = [] := List.isEmpty_iff.mp h1
    simp [validate_dataset_structure, h1, hf, classify_nil]
  · rw [Bool.not_eq_true] at h1
    by_cases h2 : (classify (fl.filter isValidFile)).image_files.isEmpty = true
    · simp [validate_dataset_structure, h1, h2, List.isEmpty_iff.mp h2]
    · rw [Bool.not_eq_true] at h2
      by_cases h3 : (classify (fl.filter isValidFile)).text_files.isEmpty = true
      · simp [validate_dataset_structure, h1, h2, h3, List.isEmpty_iff.mp h3]
      · rw [Bool.not_eq_true] at h3
        by_cases h4 : (unpairedImagesOf fl).isEmpty = true
        · simp [validate_dataset_structure, h1, h2, h3, h4, List.isEmpty_iff.mp h4,
                (isEmpty_false_iff _).mp h2, (isEmpty_false_iff _).mp h3]
        · rw [Bool.not_eq_true] at h4
          simp [validate_dataset_structure, h1, h2, h3, h4, (isEmpty_false_iff _).mp h4]

/-- The unpaired-image list is empty exactly when every image base name
has a matching caption base name. -/
theorem unpairedImages_eq_nil_iff (fl : List String) :
    unpairedImagesOf fl = [] ↔
      ∀ b ∈ (classify (fl.filter isValidFile)).image_files.map Prod.fst,
        b ∈ (classify (fl.filter isValidFile)).text_files.map Prod.fst := by
  unfold unpairedImagesOf imageBasesOf textBasesOf
  rw [List.filter_eq_nil_iff]
  constructor
  · intro h b hb
    have hmem := h b ((mem_dedupKeepFirst b _).mpr hb)
    rw [Bool.not_eq_true, Bool.not_eq_false'] at hmem
    exact (mem_dedupKeepFirst b _).mp ((contains_iff_mem _ _).mp hmem)
  · intro h b hb
    have hb' := (mem_dedupKeepFirst b _).mp hb
    rw [Bool.not_eq_true, Bool.not_eq_false']
    exact (contains_iff_mem _ _).mpr ((mem_dedupKeepFirst b _).mpr (h b hb'))

/-- The paired count the source reports is the cardinality of the
intersection of the image and caption base-name sets. -/
theorem pairedCount_eq_inter_card (fl : List String) :
    pairedCountOf fl =
      (((classify (fl.filter isValidFile)).image_files.map Prod.fst).toFinset ∩
       ((classify (fl.filter isValidFile)).text_files.map Prod.fst).toFinset).card := by
  unfold pairedCountOf imageBasesOf textBasesOf
  set im := (classify (fl.filter isValidFile)).image_files.map Prod.fst with him_def
  set tx := (classify (fl.filter isValidFile)).text_files.map Prod.fst with htx_def
  have hnodup : (dedupKeepFirst im).Nodup := nodup_dedupKeepFirst im
  have hnodupf :
      ((dedupKeepFirst im).filter (fun b => (dedupKeepFirst tx).contains b)).Nodup :=
    hnodup.filter _
  rw [← List.toFinset_card_of_nodup hnodupf, List.toFinset_filter]
  congr 1
  have hset : (dedupKeepFirst im).toFinset = im.toFinset := by
    ext a
    simp [List.mem_toFinset, mem_dedupKeepFirst]
  rw [hset, ← Finset.filter_mem_eq_inter]
  apply Finset.filter_congr
  intro b _
  simp [contains_iff_mem, mem_dedupKeepFirst, List.mem_toFinset]

/-- On success, the report is exactly the one built in the final branch. -/
theorem validate_ok_eq (fl : List String) (r : PairingReport)
    (hr : (validate_dataset_structure fl).1 = .ok r) :
    r = ⟨imageBasesOf fl, textBasesOf fl, pairedCountOf fl, unpairedTextsOf fl⟩ := by
  unfold validate_dataset_structure at hr
  split at hr
  · simp at hr
  · split at hr
    · simp at hr
    · split at hr
      · simp at hr
      · split at hr
        · simp at hr
        · simp at hr
          exact hr.symm

/-- With images present but no captions, validation takes the
no-captions branch. -/
theorem validate_noCaptions (fl : List String)
    (himg : (classify (fl.filter isValidFile)).image_files ≠ [])
    (htxt : (classify (fl.filter isValidFile)).text_files = []) :
    (validate_dataset_structure fl).1 = .error (.noCaptions noCaptionsMsg) := by
  have hne := image_files_filter_ne_nil fl himg
  unfold validate_dataset_structure
  rw [if_neg (by rw [List.isEmpty_iff]; exact hne),
      if_neg (by rw [List.isEmpty_iff]; exact himg),
      if_pos (by rw [List.isEmpty_iff]; exact htxt)]

/-- With images and captions present but some image unpaired,
validation takes the unpaired-images branch. -/
theorem validate_unpairedImages (fl : List String)
    (htxt : (classify (fl.filter isValidFile)).text_files ≠ [])
    (hu : unpairedImagesOf fl ≠ []) :
    (validate_dataset_structure fl).1 =
      .error (.unpairedImages (unpairedImagesMsg (unpairedImagesOf fl))
                              (unpairedImagesOf fl)) := by
  have himg : (classify (fl.filter isValidFile)).image_files ≠ [] := by
    intro h
    apply hu
    unfold unpairedImagesOf imageBasesOf
    rw [h]
    simp [dedupKeepFirst, dedupAux]
  have hne := image_files_filter_ne_nil fl himg
  unfold validate_dataset_structure
  rw [if_neg (by rw [List.isEmpty_iff]; exact hne),
      if_neg (by rw [List.isEmpty_iff]; exact himg),
      if_neg (by rw [List.isEmpty_iff]; exact htxt),
      if_pos (by rw [Bool.not_eq_true', isEmpty_false_iff]; exact hu)]

theorem unpairedImagesMsg_decomp (u : List String) :
    unpairedImagesMsg u =
      ("Found " ++ toString u.length ++ " image(s) without matching caption files.\n"
        ++ "Missing captions for: ")
      ++ String.intercalate ", " (u.take 5)
      ++ ((if u.length > 5 then
            " and " ++ toString (u.length - 5) ++ " more"
          else "")
          ++ "\nEach image must have a corresponding .txt file with the same filename.") := by
  unfold unpairedImagesMsg
  simp only [strAppend_assoc]

/-- The unpaired-images message carries the joined first (at most) five
offending base names. -/
theorem unpairedImagesMsg_lists_take5 (u : List String) :
    strContains (unpairedImagesMsg u) (String.intercalate ", " (u.take 5)) = true := by
  rw [unpairedImagesMsg_decomp]
  exact strContains_middle _ _ _

/-- When more than five images are unpaired, the message states the
count of the remainder. -/
theorem unpairedImagesMsg_remainder (u : List String) (h : u.length > 5) :
    strContains (unpairedImagesMsg u)
      (" and " ++ toString (u.length - 5) ++ " more") = true := by
  have hdec : unpairedImagesMsg u =
      (("Found " ++ toString u.length ++ " image(s) without matching caption files.\n"
          ++ "Missing captions for: ")
        ++ String.intercalate ", " (u.take 5))
      ++ (" and " ++ toString (u.length - 5) ++ " more")
      ++ "\nEach image must have a corresponding .txt file with the same filename." := by
    rw [unpairedImagesMsg_decomp, if_pos h]
    simp only [strAppend_assoc]
  rw [hdec]
  exact strContains_middle _ _ _

/-! ### Claims -/

/-- C1: For every archive listing, after filtering out directory entries
and hidden/system entries, dataset validation succeeds if and only if
the image set is non-empty, the caption set is non-empty, and every
image base name has a matching caption base name; on success the
reported paired count equals the size of the intersection of the image
base-name set and the caption base-name set. -/
theorem c1_validation_success_iff (file_list : List String) :
    ((∃ r, (validate_dataset_structure file_list).1 = .ok r) ↔
      ((classify (file_list.filter isValidFile)).image_files ≠ [] ∧
       (classify (file_list.filter isValidFile)).text_files ≠ [] ∧
       ∀ b ∈ (classify (file_list.filter isValidFile)).image_files.map Prod.fst,
         b ∈ (classify (file_list.filter isValidFile)).text_files.map Prod.fst)) ∧
    ∀ r, (validate_dataset_structure file_list).1 = .ok r →
      r.paired_count =
        (((classify (file_list.filter isValidFile)).image_files.map Prod.fst).toFinset ∩
         ((classify (file_list.filter isValidFile)).text_files.map Prod.fst).toFinset).card := by
  constructor
  · rw [validate_ok_iff, unpairedImages_eq_nil_iff]
  · intro r hr
    rw [validate_ok_eq file_list r hr]
    exact pairedCount_eq_inter_card file_list

/-- Witness for C1: the archive `[a.jpg, a.txt, b.png, b.txt]` validates
with paired count 2, the cardinality of the base-name intersection. -/
theorem c1_witness :
    PairingReport.paired_count ⟨["a", "b"], ["a", "b"], 2, []⟩ =
      (((classify (["a.jpg", "a.txt", "b.png", "b.txt"].filter isValidFile)).image_files.map
          Prod.fst).toFinset ∩
       ((classify (["a.jpg", "a.txt", "b.png", "b.txt"].filter isValidFile)).text_files.map
          Prod.fst).toFinset).card :=
  (c1_validation_success_iff ["a.jpg", "a.txt", "b.png", "b.txt"]).2
    ⟨["a", "b"], ["a", "b"], 2, []⟩ (by rfl)

/-- C2 counterexample: the archive `[readme.md]` contains zero caption
(.txt) files, yet validation does not fail with the no-captions error —
it fails with the no-images error, because the image check
(config.py line 342) precedes the caption check (line 345).  This
falsifies "fails with the NoCaptions error regardless of how many image
files the archive contains" at image count 0. -/
theorem c2_counterexample :
    (classify (["readme.md"].filter isValidFile)).text_files = [] ∧
    isNoCaptionsError (validate_dataset_structure ["readme.md"]).1 = false ∧
    (validate_dataset_structure ["readme.md"]).1 = .error (.noImages noImagesMsg) := by
  refine ⟨rfl, rfl, rfl⟩

/-- C2 (amended): for every archive containing at least one image file
and zero caption (.txt) files, validation fails with the NoCaptions
error, and the failure message instructs the user that manual
captioning is mandatory and gives a concrete filename-pairing example.
(The original claim's "regardless of how many image files" fails at
image count 0, where the NoImages check fires first.) -/
theorem c2_noCaptions (file_list : List String)
    (himg : (classify (file_list.filter isValidFile)).image_files ≠ [])
    (htxt : (classify (file_list.filter isValidFile)).text_files = []) :
    (validate_dataset_structure file_list).1 = .error (.noCaptions noCaptionsMsg) ∧
    strContains noCaptionsMsg "Manual captioning is required" = true ∧
    strContains noCaptionsMsg "Example: image1.jpg → image1.txt" = true := by
  refine ⟨validate_noCaptions file_list himg htxt, ?_, ?_⟩ <;>
    · set_option maxRecDepth 100000 in decide

/-- Witness for C2 at the archive `[a.jpg]`. -/
theorem c2_witness :
    (validate_dataset_structure ["a.jpg"]).1 = .error (.noCaptions noCaptionsMsg) ∧
    strContains noCaptionsMsg "Manual captioning is required" = true ∧
    strContains noCaptionsMsg "Example: image1.jpg → image1.txt" = true :=
  c2_noCaptions ["a.jpg"] (by decide) rfl

/-- C3 counterexample: with six unpaired images `img1..img6`, validation
fails with the UnpairedImages error and `img6` is among the unpaired
base names, yet the message does not list `img6` (only the first five
names are joined into the message).  This falsifies "whose message
lists that image's base name" for every unpaired image. -/
theorem c3_counterexample :
    (validate_dataset_structure
        ["img1.jpg", "img2.jpg", "img3.jpg", "img4.jpg", "img5.jpg", "img6.jpg",
         "cap.txt"]).1 =
      .error (.unpairedImages
        (unpairedImagesMsg ["img1", "img2", "img3", "img4", "img5", "img6"])
        ["img1", "img2", "img3", "img4", "img5", "img6"]) ∧
    "img6" ∈ unpairedImagesOf
        ["img1.jpg", "img2.jpg", "img3.jpg", "img4.jpg", "img5.jpg", "img6.jpg",
         "cap.txt"] ∧
    strContains (unpairedImagesMsg ["img1", "img2", "img3", "img4", "img5", "img6"])
      "img6" = false := by
  refine ⟨rfl, by decide, ?_⟩
  set_option maxRecDepth 1000000 in decide

/-- C3 (amended): when some image base name lacks a matching caption
base name (and captions exist), validation fails with the
UnpairedImages error carrying all offending base names; the message
lists the first at most 5 offending names, and, when more than 5 images
are unpaired, states the count of the remainder.  (The original claim's
"message lists that image's base name" fails for unpaired images beyond
the fifth.) -/
theorem c3_unpairedImages (file_list : List String)
    (htxt : (classify (file_list.filter isValidFile)).text_files ≠ [])
    (hu : unpairedImagesOf file_list ≠ []) :
    (validate_dataset_structure file_list).1 =
      .error (.unpairedImages (unpairedImagesMsg (unpairedImagesOf file_list))
                              (unpairedImagesOf file_list)) ∧
    ((unpairedImagesOf file_list).take 5).length ≤ 5 ∧
    strContains (unpairedImagesMsg (unpairedImagesOf file_list))
      (String.intercalate ", " ((unpairedImagesOf file_list).take 5)) = true ∧
    ((unpairedImagesOf file_list).length > 5 →
      strContains (unpairedImagesMsg (unpairedImagesOf file_list))
        (" and " ++ toString ((unpairedImagesOf file_list).length - 5) ++ " more") =
          true) :=
  ⟨validate_unpairedImages file_list htxt hu,
   by rw [List.length_take]; exact Nat.min_le_left _ _,
   unpairedImagesMsg_lists_take5 _,
   fun h => unpairedImagesMsg_remainder _ h⟩

/-- Witness for C3 at the archive with six unpaired images. -/
theorem c3_witness :
    (validate_dataset_structure
        ["img1.jpg", "img2.jpg", "img3.jpg", "img4.jpg", "img5.jpg", "img6.jpg",
         "cap.txt"]).1 =
      .error (.unpairedImages
        (unpairedImagesMsg (unpairedImagesOf
          ["img1.jpg", "img2.jpg", "img3.jpg", "img4.jpg", "img5.jpg", "img6.jpg",
           "cap.txt"]))
        (unpairedImagesOf
          ["img1.jpg", "img2.jpg", "img3.jpg", "img4.jpg", "img5.jpg", "img6.jpg",
           "cap.txt"])) :=
  (c3_unpairedImages
    ["img1.jpg", "img2.jpg", "img3.jpg", "img4.jpg", "img5.jpg", "img6.jpg",
     "cap.txt"] (by decide) (by decide)).1

/-- C4 counterexample: for the archive `[a.jpg, b.txt]`, validation does
fail with UnpairedImages `["a"]` and `"b"` is indeed an unpaired caption
base, but no warning is emitted: the raise at config.py line 357
precedes the unpaired-captions warning at line 365, so the claim's
"also emits a warning" is false. -/
theorem c4_counterexample :
    unpairedTextsOf ["a.jpg", "b.txt"] = ["b"] ∧
    (validate_dataset_structure ["a.jpg", "b.txt"]).1 =
      .error (.unpairedImages (unpairedImagesMsg ["a"]) ["a"]) ∧
    (validate_dataset_structure ["a.jpg", "b.txt"]).2 = [] :=
  ⟨rfl, rfl, rfl⟩

/-- C4 (amended): for the archive containing exactly `a.jpg` and
`b.txt`, validation fails with UnpairedImages equal to `["a"]` and
emits no warning at all: the unpaired-caption warning for `"b"` is
unreachable because the UnpairedImages failure occurs first. -/
theorem c4_unpaired_no_warning :
    validate_dataset_structure ["a.jpg", "b.txt"] =
      (.error (.unpairedImages (unpairedImagesMsg ["a"]) ["a"]), []) := rfl

/-- C5: for every poll trace whose first terminal element is a terminal
status, the monitoring loop returns exactly that terminal status having
issued exactly one status fetch per iteration up to and including the
terminal one, and issues no further polls; a trace of only non-terminal
statuses never causes the loop to return. -/
theorem c5_terminal_status (pre : List String) (t : String) (rest : List PollEvent)
    (hpre : ∀ s ∈ pre, isTerminal s = false) (ht : isTerminal t = true) :
    monitorRun (pre.map PollEvent.polled ++ PollEvent.polled t :: rest) =
      some (t, List.replicate (pre.length + 1) ClientOp.getStatus) ∧
    ∀ l : List String, (∀ s ∈ l, isTerminal s = false) →
      monitorRun (l.map PollEvent.polled) = none := by
  constructor
  · revert hpre
    induction pre with
    | nil =>
      intro _
      simp [monitorRun, ht, List.replicate]
    | cons a pre ih =>
      intro hpre
      have ha := hpre a (List.mem_cons_self _ _)
      have ih' := ih (fun s hs => hpre s (List.mem_cons_of_mem a hs))
      simp only [List.map_cons, List.cons_append, monitorRun]
      rw [if_neg (by simp [ha])]
      simp only [List.append_eq]
      rw [ih']
      simp [List.replicate_succ]
  · intro l
    induction l with
    | nil => intro _; rfl
    | cons a l ih =>
      intro hl
      have ha := hl a (List.mem_cons_self _ _)
      simp only [List.map_cons, monitorRun]
      rw [if_neg (by simp [ha])]
      rw [ih (fun s hs => hl s (List.mem_cons_of_mem a hs))]
      rfl

/-- Witness for C5: two non-terminal polls then `succeeded` yield
`succeeded` after exactly 3 status fetches. -/
theorem c5_witness :
    monitorRun (["starting", "processing"].map PollEvent.polled
        ++ PollEvent.polled "succeeded" :: []) =
      some ("succeeded", List.replicate 3 ClientOp.getStatus) :=
  (c5_terminal_status ["starting", "processing"] "succeeded" [] (by decide) rfl).1

/-- C6 counterexample: for the poll-result sequence
`[starting, processing, processing, succeeded]`, the monitor returns
`"succeeded"` after exactly 4 status polls, not 3: every element of the
sequence, including the terminal one, is the result of one poll. -/
theorem c6_counterexample :
    (monitorRun [.polled "starting", .polled "processing", .polled "processing",
                 .polled "succeeded"]).map (fun r => (r.1, r.2.length)) =
      some ("succeeded", 4) ∧
    (monitorRun [.polled "starting", .polled "processing", .polled "processing",
                 .polled "succeeded"]).map (fun r => (r.1, r.2.length)) ≠
      some ("succeeded", 3) :=
  ⟨rfl, by decide⟩

/-- C6 (amended): for the poll-result sequence
`[starting, processing, processing, succeeded]`, the monitor returns the
string `"succeeded"` after exactly 4 status polls and makes no further
status calls, whatever events would follow. -/
theorem c6_four_polls (rest : List PollEvent) :
    monitorRun ([PollEvent.polled "starting", PollEvent.polled "processing",
                 PollEvent.polled "processing", PollEvent.polled "succeeded"] ++ rest) =
      some ("succeeded", List.replicate 4 ClientOp.getStatus) := rfl

/-- C7: when an interrupt is delivered during the polling loop — either
during a status fetch or during the sleep after a non-terminal poll —
the monitor returns the distinguished `"monitoring_stopped"` state
having issued only the status fetches completed before the interrupt
(none afterwards), and never issues a cancel request. -/
theorem c7_interrupt_stops_monitoring (pre : List String) (rest : List PollEvent)
    (s : String)
    (hpre : ∀ x ∈ pre, isTerminal x = false) (hs : isTerminal s = false) :
    monitorRun (pre.map PollEvent.polled ++ PollEvent.fetchInterrupted :: rest) =
      some ("monitoring_stopped", List.replicate pre.length ClientOp.getStatus) ∧
    monitorRun (pre.map PollEvent.polled ++ PollEvent.sleepInterrupted s :: rest) =
      some ("monitoring_stopped", List.replicate (pre.length + 1) ClientOp.getStatus) ∧
    ClientOp.cancel ∉ List.replicate pre.length ClientOp.getStatus ∧
    ClientOp.cancel ∉ List.replicate (pre.length + 1) ClientOp.getStatus := by
  refine ⟨?_, ?_, ?_, ?_⟩
  · revert hpre
    induction pre with
    | nil => intro _; rfl
    | cons a pre ih =>
      intro hpre
      have ha := hpre a (List.mem_cons_self _ _)
      simp only [List.map_cons, List.cons_append, monitorRun]
      rw [if_neg (by simp [ha])]
      simp only [List.append_eq]
      rw [ih (fun x hx => hpre x (List.mem_cons_of_mem a hx))]
      simp [List.replicate_succ]
  · revert hpre
    induction pre with
    | nil =>
      intro _
      simp only [List.map_nil, List.nil_append, monitorRun]
      rw [if_neg (by simp [hs])]
      rfl
    | cons a pre ih =>
      intro hpre
      have ha := hpre a (List.mem_cons_self _ _)
      simp only [List.map_cons, List.cons_append, monitorRun]
      rw [if_neg (by simp [ha])]
      simp only [List.append_eq]
      rw [ih (fun x hx => hpre x (List.mem_cons_of_mem a hx))]
      simp [List.replicate_succ]
  · intro hmem
    exact absurd (List.mem_replicate.mp hmem).2 (by decide)
  · intro hmem
    exact absurd (List.mem_replicate.mp hmem).2 (by decide)

/-- Witness for C7: interrupt during the second status fetch of the
sequence `[starting, processing, processing, succeeded]` returns
`"monitoring_stopped"` after a single completed status call. -/
theorem c7_witness :
    monitorRun (["starting"].map PollEvent.polled ++ PollEvent.fetchInterrupted ::
        [PollEvent.polled "processing", PollEvent.polled "succeeded"]) =
      some ("monitoring_stopped", List.replicate 1 ClientOp.getStatus) :=
  (c7_interrupt_stops_monitoring ["starting"]
    [PollEvent.polled "processing", PollEvent.polled "succeeded"] "processing"
    (by decide) rfl).1

/-- C8: `cancel_training` checks the job status client-side before any
cancel request: for a status that is neither `starting` nor
`processing` it returns `false` having issued only the status fetch (no
cancel request is ever sent); for `starting`/`processing` it issues the
cancel request and returns `true`. -/
theorem c8_cancel_policy (status : String) :
    ((status = "starting" ∨ status = "processing") →
       cancel_training status = (true, [ClientOp.getStatus, ClientOp.cancel])) ∧
    (status ≠ "starting" → status ≠ "processing" →
       cancel_training status = (false, [ClientOp.getStatus]) ∧
       ClientOp.cancel ∉ (cancel_training status).2) := by
  constructor
  · rintro (rfl | rfl) <;> rfl
  · intro h1 h2
    have hcond : ¬((status == "starting" || status == "processing") = true) := by
      simp [h1, h2]
    constructor
    · unfold cancel_training
      rw [if_neg hcond]
    · unfold cancel_training
      rw [if_neg hcond]
      decide

/-- Witness for C8 at the statuses `succeeded` (not cancelable) and
`starting` (cancelable). -/
theorem c8_witness :
    cancel_training "succeeded" = (false, [ClientOp.getStatus]) ∧
    cancel_training "starting" = (true, [ClientOp.getStatus, ClientOp.cancel]) :=
  ⟨((c8_cancel_policy "succeeded").2 (by decide) (by decide)).1,
   (c8_cancel_policy "starting").1 (Or.inl rfl)⟩

/-- C9: the materializer reports the artifact as
`{modelName}_{triggerWord}.safetensors` with the model name the
destination's trailing path segment; the scenario
(destination `alice/my-model`, trigger `ZXQ`, extracted
`model.safetensors`) yields `my-model_ZXQ.safetensors`; when the first
located weights file already bears the target name the rename is a
no-op; and with exactly one weights file present, materializing a
second time into the resulting directory performs no rename and leaves
the artifact path unchanged. -/
theorem c9_rename_deterministic_idempotent :
    (∀ files d t r, renameArtifact files d t = some r →
       r.artifact = targetFileName d t) ∧
    (renameArtifact ["model.safetensors"] "alice/my-model" "ZXQ" =
       some ⟨["my-model_ZXQ.safetensors"], "my-model_ZXQ.safetensors", true⟩ ∧
     targetFileName "alice/my-model" "ZXQ" = "my-model_ZXQ.safetensors") ∧
    (∀ files d t, files.filter isWeightsFile ≠ [] →
       (files.filter isWeightsFile).headD "" = targetFileName d t →
       renameArtifact files d t = some ⟨files, targetFileName d t, false⟩) ∧
    (∀ files d t orig, files.filter isWeightsFile = [orig] →
       ∀ r, renameArtifact files d t = some r →
         renameArtifact r.files d t = some ⟨r.files, r.artifact, false⟩) := by
  refine ⟨?_, ⟨rfl, rfl⟩, ?_, ?_⟩
  · intro files d t r hr
    unfold renameArtifact at hr
    split at hr
    · cases hr
    · rename_i orig tl heq
      dsimp only at hr
      split at hr <;> (injection hr with hr'; rw [← hr'])
  · intro files d t hne hhead
    cases hEq : files.filter isWeightsFile with
    | nil => exact absurd hEq hne
    | cons orig tl =>
      rw [hEq] at hhead
      simp only [List.headD_cons] at hhead
      unfold renameArtifact
      rw [hEq]
      dsimp only
      rw [if_pos hhead]
  · intro files d t orig hfilter r hr
    have horigw : isWeightsFile orig = true := by
      have hmem : orig ∈ files.filter isWeightsFile := by
        rw [hfilter]; exact List.mem_cons_self _ _
      exact (List.mem_filter.mp hmem).2
    have hpw : isWeightsFile (targetFileName d t) = true := by
      unfold isWeightsFile targetFileName
      exact hasSuffixStr_append _ _
    unfold renameArtifact at hr
    rw [hfilter] at hr
    dsimp only at hr
    by_cases horig : orig = targetFileName d t
    · rw [if_pos horig] at hr
      injection hr with hr'
      subst hr'
      unfold renameArtifact
      rw [hfilter]
      dsimp only
      rw [if_pos horig]
    · rw [if_neg horig] at hr
      injection hr with hr'
      subst hr'
      have hfilter2 :
          (files.map (fun f => if f = orig then targetFileName d t else f)).filter
              isWeightsFile = [targetFileName d t] := by
        rw [List.filter_map]
        have hcongr : files.filter
            (isWeightsFile ∘ (fun f => if f = orig then targetFileName d t else f)) =
            files.filter isWeightsFile := by
          apply List.filter_congr
          intro f _
          by_cases hfo : f = orig
          · subst hfo
            simp [Function.comp, hpw, horigw]
          · simp [Function.comp, hfo]
        rw [hcongr, hfilter]
        simp
      unfold renameArtifact
      rw [hfilter2]
      dsimp only
      rw [if_pos rfl]

/-- Witness for C9: a second materialization after the artifact was
renamed to `my-model_ZXQ.safetensors` is a no-op on the directory and
reports the same artifact path. -/
theorem c9_witness :
    renameArtifact ["my-model_ZXQ.safetensors"] "alice/my-model" "ZXQ" =
      some ⟨["my-model_ZXQ.safetensors"], "my-model_ZXQ.safetensors", false⟩ :=
  c9_rename_deterministic_idempotent.2.2.2 ["model.safetensors"] "alice/my-model" "ZXQ"
    "model.safetensors" (by decide)
    ⟨["my-model_ZXQ.safetensors"], "my-model_ZXQ.safetensors", true⟩ (by decide)

/-- C10: the pairing key is case-sensitive and includes the directory
prefix even though extension classification is case-insensitive:
`A.JPG` is classified as an image with base `A`, pairs with `A.txt` but
not with `a.txt`; `sub/a.jpg` pairs with `sub/a.txt` but not with
`a.txt`; and the hidden/system filter tests only the start of the full
entry path, so `folder/.hidden.txt` is kept and counts as a caption
with base `folder/.hidden`, while `.hidden.txt` is filtered out. -/
theorem c10_pairing_key_case_and_path :
    (classify ["A.JPG"]).image_files = [("A", "A.JPG")] ∧
    (validate_dataset_structure ["A.JPG", "a.txt"]).1 =
      .error (.unpairedImages (unpairedImagesMsg ["A"]) ["A"]) ∧
    (validate_dataset_structure ["A.JPG", "A.txt"]).1 = .ok ⟨["A"], ["A"], 1, []⟩ ∧
    (validate_dataset_structure ["sub/a.jpg", "sub/a.txt"]).1 =
      .ok ⟨["sub/a"], ["sub/a"], 1, []⟩ ∧
    (validate_dataset_structure ["sub/a.jpg", "a.txt"]).1 =
      .error (.unpairedImages (unpairedImagesMsg ["sub/a"]) ["sub/a"]) ∧
    isValidFile "folder/.hidden.txt" = true ∧
    isValidFile ".hidden.txt" = false ∧
    (classify ["folder/.hidden.txt"]).text_files =
      [("folder/.hidden", "folder/.hidden.txt")] :=
  ⟨rfl, rfl, rfl, rfl, rfl, rfl, rfl, rfl⟩

end SD35L
